import Mathlib

/-!
Verification of the PortAudio sample-conversion core (src/common/pa_converters.c
and src/common/pa_dither.h): a shallow embedding of the triangular dither
generator, the format/converter selection logic and the per-sample conversion
kernels, together with theorems settling the specification claims.
Machine integers are modelled as Int/Nat with explicit two-complement wrapping;
buffers are modelled as address-indexed functions, strided exactly as in C.
-/

/-- Two-complement wrap of an integer into the signed 32-bit range,
modelling C PaInt32 overflow behaviour. -/
def wrap32 (x : Int) : Int := (x + 2147483648) % 4294967296 - 2147483648

/-- Two-complement wrap into the signed 16-bit range, modelling a C cast to PaInt16. -/
def wrap16 (x : Int) : Int := (x + 32768) % 65536 - 32768

/-- Two-complement wrap into the signed 8-bit range, modelling a C cast to signed char. -/
def wrap8 (x : Int) : Int := (x + 128) % 256 - 128

/-- Arithmetic right shift by n bits of a two-complement value, i.e. floor
division by 2 ^ n (division on Int is floor division for a positive divisor). -/
def sar (x : Int) (n : Nat) : Int := x / 2 ^ n

/-- Reinterpret an unsigned 32-bit pattern as a signed 32-bit value
(the C cast (PaInt32) applied to a PaUint32). -/
def toSigned32 (u : Nat) : Int :=
  if u % 4294967296 < 2147483648 then ((u % 4294967296 : Nat) : Int)
  else ((u % 4294967296 : Nat) : Int) - 4294967296

/-- One step of the linear congruential recurrence used by both dither seeds:
seed * 196314165 + 907633515 modulo 2 ^ 32 (pa_dither.h). -/
def lcgNext (s : Nat) : Nat := (s * 196314165 + 907633515) % 4294967296

/-- Scalar dither state: previous high-pass input and the two LCG seeds
(pa_dither.h, PaUtilTriangularDitherGenerator with one lane per seed). -/
structure DitherState where
  previous : Int
  randSeed1 : Nat
  randSeed2 : Nat
deriving DecidableEq

/-- Modelled from the spec: PaUtil_Generate16BitTriangularDither; pa_dither.c is
not under src/, but pa_dither.h documents the algorithm and quotes the scalar
code in comments.  Both seeds advance one LCG step, each updated seed is
reinterpreted as signed and arithmetically shifted right by
DITHER_SHIFT_ = (32 - 15) + 1 = 18 bits, the two small values are summed and
a first-order high pass (sum minus previous sum) is returned. -/
def PaUtil_Generate16BitTriangularDither (st : DitherState) : Int × DitherState :=
  let s1 := lcgNext st.randSeed1
  let s2 := lcgNext st.randSeed2
  let current := sar (toSigned32 s1) 18 + sar (toSigned32 s2) 18
  let highPass := current - st.previous
  (highPass, ⟨current, s1, s2⟩)

/-- Modelled from the spec: PaUtil_GenerateFloatTriangularDither (pa_dither.c is
not under src/).  The C function performs the identical integer computation as
the 16-bit entry point and returns the high-pass value multiplied by
const_float_dither_scale_ = 1/((1 <<< 15) - 1) as a float32.  The model returns
the integer high-pass value; the common final float scaling of equal integers
yields bit-identical floats, so equivalence claims are settled at this level. -/
def PaUtil_GenerateFloatTriangularDither (st : DitherState) : Int × DitherState :=
  PaUtil_Generate16BitTriangularDither st

/-- Outputs and final state of n successive calls of the scalar float dither
generator (integer high-pass model). -/
def scalarDitherRun : Nat → DitherState → List Int × DitherState
  | 0, st => ([], st)
  | n + 1, st =>
    let p := PaUtil_GenerateFloatTriangularDither st
    let r := scalarDitherRun n p.2
    (p.1 :: r.1, r.2)

/-- The j-th dither value produced from an initial state by repeated calls of
the scalar generator: the generator output at the state reached after j
calls. -/
def nthDither (st : DitherState) (j : Nat) : Int :=
  (PaUtil_Generate16BitTriangularDither (scalarDitherRun j st).2).1

/-- Four 32-bit lanes, as held in one NEON q register. -/
structure Quad where
  q0 : Nat
  q1 : Nat
  q2 : Nat
  q3 : Nat
deriving DecidableEq

/-- Vector dither state: previous high-pass input and four lanes per seed
(pa_dither.h, PaUtilTriangularDitherGenerator with ARM_NEON_BEST_VECTOR_SIZE
lanes). -/
structure DitherStateVec where
  previous : Int
  randSeed1 : Quad
  randSeed2 : Quad
deriving DecidableEq

/-- One vmlaq_u32(offset, seeds, mult) step: the LCG recurrence applied to every
lane (pa_dither.h). -/
def vmlaSeed (q : Quad) : Quad := ⟨lcgNext q.q0, lcgNext q.q1, lcgNext q.q2, lcgNext q.q3⟩

/-- Saturating 32-bit subtraction, modelling the NEON vqsubq_s32 lane operation. -/
def satSub32 (a b : Int) : Int :=
  let d := a - b
  if d < -2147483648 then -2147483648 else if d > 2147483647 then 2147483647 else d

/-- PaUtil_GenerateFloatTriangularDitherVector (pa_dither.h, NEON path): each
seed register advances one LCG step, the updated lanes are reinterpreted as
signed and shifted right by DITHER_SHIFT_ = 18, then the registers advance three
further steps and are stored back; the per-lane sums form the current vector;
the high-pass vector subtracts (with vqsubq_s32) the vector rotated right by one
lane with the stored previous value in lane 0, and lane 3 of the current vector
becomes the new previous value.  As with the scalar model the final
multiplication by const_float_dither_scale_ is left to the caller. -/
def PaUtil_GenerateFloatTriangularDitherVector (st : DitherStateVec) :
    List Int × DitherStateVec :=
  let r1 := vmlaSeed st.randSeed1
  let a0 := sar (toSigned32 r1.q0) 18
  let a1 := sar (toSigned32 r1.q1) 18
  let a2 := sar (toSigned32 r1.q2) 18
  let a3 := sar (toSigned32 r1.q3) 18
  let seed1 := vmlaSeed (vmlaSeed (vmlaSeed r1))
  let r2 := vmlaSeed st.randSeed2
  let b0 := sar (toSigned32 r2.q0) 18
  let b1 := sar (toSigned32 r2.q1) 18
  let b2 := sar (toSigned32 r2.q2) 18
  let b3 := sar (toSigned32 r2.q3) 18
  let seed2 := vmlaSeed (vmlaSeed (vmlaSeed r2))
  let c0 := a0 + b0
  let c1 := a1 + b1
  let c2 := a2 + b2
  let c3 := a3 + b3
  ([satSub32 c0 st.previous, satSub32 c1 c0, satSub32 c2 c1, satSub32 c3 c2],
   ⟨c3, seed1, seed2⟩)

/-- Modelled from the spec: the vector-lane arrangement corresponding to a
scalar state (PaUtil_InitializeTriangularDitherState is not under src/).  Lane i
holds the scalar seed advanced i LCG steps; this is the arrangement under which
the spec requires the vector generator to reproduce the scalar sequence. -/
def laneInit (st : DitherState) : DitherStateVec :=
  ⟨st.previous,
   ⟨st.randSeed1, lcgNext st.randSeed1, lcgNext (lcgNext st.randSeed1),
    lcgNext (lcgNext (lcgNext st.randSeed1))⟩,
   ⟨st.randSeed2, lcgNext st.randSeed2, lcgNext (lcgNext st.randSeed2),
    lcgNext (lcgNext (lcgNext st.randSeed2))⟩⟩

/-- Outputs (lanes read back in order) and final state of k successive calls of
the vector dither generator. -/
def vectorDitherRun : Nat → DitherStateVec → List Int × DitherStateVec
  | 0, st => ([], st)
  | k + 1, st =>
    let p := PaUtil_GenerateFloatTriangularDitherVector st
    let r := vectorDitherRun k p.2
    (p.1 ++ r.1, r.2)

/-- Sample format bit constants (portaudio.h values, referenced as paFloat32 and
so on by pa_converters.c; the hard-coded 0x01 test in
PaUtil_SelectClosestAvailableFormat confirms paFloat32 = 1). -/
def paFloat32 : Nat := 1

/-- paInt32 sample format bit. -/
def paInt32 : Nat := 2

/-- paInt24 sample format bit. -/
def paInt24 : Nat := 4

/-- paInt16 sample format bit. -/
def paInt16 : Nat := 8

/-- paInt8 sample format bit. -/
def paInt8 : Nat := 16

/-- paUInt8 sample format bit. -/
def paUInt8 : Nat := 32

/-- paCustomFormat bit, the upper bound of the downward format scan. -/
def paCustomFormat : Nat := 65536

/-- Mask clearing the paNonInterleaved bit (bit 31) from a 64-bit PaSampleFormat,
modelling format &= ~paNonInterleaved on a 64-bit unsigned long. -/
def niMask : Nat := 0xFFFFFFFF7FFFFFFF

/-- Modelled from the spec: the "not supported" sentinel returned by
PaUtil_SelectClosestAvailableFormat (the PaErrorCode value -9994 from
portaudio.h, which is not under src/, converted to the unsigned 64-bit
PaSampleFormat return type). -/
def paSampleFormatNotSupported : Nat := 18446744073709541622

/-- The "scan for better formats" do-while loop of
PaUtil_SelectClosestAvailableFormat: shift the format indicator right while it
does not intersect the available set and is not yet zero.  The fuel argument
only bounds the iteration count; since the indicator halves each step, 64 units
of fuel reproduce the C loop exactly for every 64-bit start value. -/
def scanBetter (avail : Nat) : Nat → Nat → Nat
  | fuel, r =>
    let r1 := r / 2
    if (r1 &&& avail) = 0 ∧ r1 ≠ 0 then
      match fuel with
      | 0 => r1
      | f + 1 => scanBetter avail f r1
    else r1

/-- The "scan for worse formats" do-while loop of
PaUtil_SelectClosestAvailableFormat: shift the format indicator left (with
64-bit wrap) while it does not intersect the available set and has not reached
paCustomFormat.  With 64 units of fuel this reproduces the C loop exactly on
every input on which the C loop terminates (the indicator reaches zero after at
most 64 doublings, after which the C loop can never exit). -/
def scanWorse (avail : Nat) : Nat → Nat → Nat
  | fuel, r =>
    let r1 := r * 2 % 18446744073709551616
    if (r1 &&& avail) = 0 ∧ r1 ≠ paCustomFormat then
      match fuel with
      | 0 => r1
      | f + 1 => scanWorse avail f r1
    else r1

/-- PaUtil_SelectClosestAvailableFormat (pa_converters.c): strip the
non-interleaved bits, return the format when directly available, otherwise scan
toward smaller bit values (unless the requested format is already 0x01), then,
when that found nothing, scan toward larger values up to paCustomFormat, and
fall back to the "not supported" sentinel. -/
def PaUtil_SelectClosestAvailableFormat (availableFormats format : Nat) : Nat :=
  let fmt := format &&& niMask
  let avail := availableFormats &&& niMask
  if fmt &&& avail ≠ 0 then fmt
  else
    let result := if fmt ≠ 1 then scanBetter avail 64 fmt else 0
    if result = 0 then
      let result := scanWorse avail 64 fmt
      if result &&& avail = 0 then paSampleFormatNotSupported else result
    else result

/-- The downward-search-only variant of the closest-format selection: only the
"scan for worse formats" loop runs, then the not-supported fallback.  Used to
state the claim that the upward scan is skipped for certain requested
formats. -/
def selectClosestDownwardOnly (availableFormats format : Nat) : Nat :=
  let fmt := format &&& niMask
  let avail := availableFormats &&& niMask
  let result := scanWorse avail 64 fmt
  if result &&& avail = 0 then paSampleFormatNotSupported else result

/-- Identities of the converters in the PaUtilConverterTable of
pa_converters.c; PaUtil_SelectConverter returns one of these (or none,
modelling the NULL default of PA_SELECT_FORMAT_). -/
inductive ConverterId where
  | Float32_To_Int32
  | Float32_To_Int32_Dither
  | Float32_To_Int32_Clip
  | Float32_To_Int32_DitherClip
  | Float32_To_Int24
  | Float32_To_Int24_Dither
  | Float32_To_Int24_Clip
  | Float32_To_Int24_DitherClip
  | Float32_To_Int16
  | Float32_To_Int16_Dither
  | Float32_To_Int16_Clip
  | Float32_To_Int16_DitherClip
  | Float32_To_Int8
  | Float32_To_Int8_Dither
  | Float32_To_Int8_Clip
  | Float32_To_Int8_DitherClip
  | Float32_To_UInt8
  | Float32_To_UInt8_Dither
  | Float32_To_UInt8_Clip
  | Float32_To_UInt8_DitherClip
  | Int32_To_Float32
  | Int32_To_Int24
  | Int32_To_Int24_Dither
  | Int32_To_Int16
  | Int32_To_Int16_Dither
  | Int32_To_Int8
  | Int32_To_Int8_Dither
  | Int32_To_UInt8
  | Int32_To_UInt8_Dither
  | Int24_To_Float32
  | Int24_To_Int32
  | Int24_To_Int16
  | Int24_To_Int16_Dither
  | Int24_To_Int8
  | Int24_To_Int8_Dither
  | Int24_To_UInt8
  | Int24_To_UInt8_Dither
  | Int16_To_Float32
  | Int16_To_Int32
  | Int16_To_Int24
  | Int16_To_Int8
  | Int16_To_Int8_Dither
  | Int16_To_UInt8
  | Int16_To_UInt8_Dither
  | Int8_To_Float32
  | Int8_To_Int32
  | Int8_To_Int24
  | Int8_To_Int16
  | Int8_To_UInt8
  | UInt8_To_Float32
  | UInt8_To_Int32
  | UInt8_To_Int24
  | UInt8_To_Int16
  | UInt8_To_Int8
  | Copy_8_To_8
  | Copy_16_To_16
  | Copy_24_To_24
  | Copy_32_To_32
deriving DecidableEq

/-- Modelled from the spec: the PaStreamFlags bit paClipOff (portaudio.h is not
under src/); a set bit disables clipping. -/
def paClipOff : Nat := 1

/-- Modelled from the spec: the PaStreamFlags bit paDitherOff; a set bit
disables dithering. -/
def paDitherOff : Nat := 2

/-- PA_SELECT_CONVERTER_DITHER_CLIP_ (pa_converters.c): pick among the four
variants of a float-to-integer conversion from the clip-off and dither-off
flag bits. -/
def selDitherClip (flags : Nat) (plain dither clip ditherClip : ConverterId) :
    ConverterId :=
  if flags &&& paClipOff ≠ 0 then
    if flags &&& paDitherOff ≠ 0 then plain else dither
  else
    if flags &&& paDitherOff ≠ 0 then clip else ditherClip

/-- PA_SELECT_CONVERTER_DITHER_ (pa_converters.c): pick the plain or dithered
variant of an integer narrowing conversion from the dither-off flag bit. -/
def selDither (flags : Nat) (plain dither : ConverterId) : ConverterId :=
  if flags &&& paDitherOff ≠ 0 then plain else dither

/-- PaUtil_SelectConverter (pa_converters.c): the nested PA_SELECT_FORMAT_
dispatch on (source format, destination format), stripped of the
non-interleaved bit, with PA_UNITY_CONVERSION_ on the diagonal and the
dither/clip flag selection where the table defines variants. -/
def PaUtil_SelectConverter (sourceFormat destinationFormat flags : Nat) :
    Option ConverterId :=
  let s := sourceFormat &&& niMask
  let d := destinationFormat &&& niMask
  if s = paFloat32 then
    if d = paFloat32 then some .Copy_32_To_32
    else if d = paInt32 then some (selDitherClip flags .Float32_To_Int32
      .Float32_To_Int32_Dither .Float32_To_Int32_Clip .Float32_To_Int32_DitherClip)
    else if d = paInt24 then some (selDitherClip flags .Float32_To_Int24
      .Float32_To_Int24_Dither .Float32_To_Int24_Clip .Float32_To_Int24_DitherClip)
    else if d = paInt16 then some (selDitherClip flags .Float32_To_Int16
      .Float32_To_Int16_Dither .Float32_To_Int16_Clip .Float32_To_Int16_DitherClip)
    else if d = paInt8 then some (selDitherClip flags .Float32_To_Int8
      .Float32_To_Int8_Dither .Float32_To_Int8_Clip .Float32_To_Int8_DitherClip)
    else if d = paUInt8 then some (selDitherClip flags .Float32_To_UInt8
      .Float32_To_UInt8_Dither .Float32_To_UInt8_Clip .Float32_To_UInt8_DitherClip)
    else none
  else if s = paInt32 then
    if d = paFloat32 then some .Int32_To_Float32
    else if d = paInt32 then some .Copy_32_To_32
    else if d = paInt24 then some (selDither flags .Int32_To_Int24 .Int32_To_Int24_Dither)
    else if d = paInt16 then some (selDither flags .Int32_To_Int16 .Int32_To_Int16_Dither)
    else if d = paInt8 then some (selDither flags .Int32_To_Int8 .Int32_To_Int8_Dither)
    else if d = paUInt8 then some (selDither flags .Int32_To_UInt8 .Int32_To_UInt8_Dither)
    else none
  else if s = paInt24 then
    if d = paFloat32 then some .Int24_To_Float32
    else if d = paInt32 then some .Int24_To_Int32
    else if d = paInt24 then some .Copy_24_To_24
    else if d = paInt16 then some (selDither flags .Int24_To_Int16 .Int24_To_Int16_Dither)
    else if d = paInt8 then some (selDither flags .Int24_To_Int8 .Int24_To_Int8_Dither)
    else if d = paUInt8 then some (selDither flags .Int24_To_UInt8 .Int24_To_UInt8_Dither)
    else none
  else if s = paInt16 then
    if d = paFloat32 then some .Int16_To_Float32
    else if d = paInt32 then some .Int16_To_Int32
    else if d = paInt24 then some .Int16_To_Int24
    else if d = paInt16 then some .Copy_16_To_16
    else if d = paInt8 then some (selDither flags .Int16_To_Int8 .Int16_To_Int8_Dither)
    else if d = paUInt8 then some (selDither flags .Int16_To_UInt8 .Int16_To_UInt8_Dither)
    else none
  else if s = paInt8 then
    if d = paFloat32 then some .Int8_To_Float32
    else if d = paInt32 then some .Int8_To_Int32
    else if d = paInt24 then some .Int8_To_Int24
    else if d = paInt16 then some .Int8_To_Int16
    else if d = paInt8 then some .Copy_8_To_8
    else if d = paUInt8 then some .Int8_To_UInt8
    else none
  else if s = paUInt8 then
    if d = paFloat32 then some .UInt8_To_Float32
    else if d = paInt32 then some .UInt8_To_Int32
    else if d = paInt24 then some .UInt8_To_Int24
    else if d = paInt16 then some .UInt8_To_Int16
    else if d = paInt8 then some .UInt8_To_Int8
    else if d = paUInt8 then some .Copy_8_To_8
    else none
  else none

/-- A buffer of natural-number cells indexed by address; used for byte buffers
(cells < 256 when written by the kernels) and for raw 16/32-bit element
buffers copied verbatim. -/
def Mem : Type := Nat → Nat

/-- A buffer of signed integer elements indexed by element address. -/
def MemI : Type := Nat → Int

/-- Store one cell of a buffer. -/
def writeCell {D : Type} (m : Nat → D) (a : Nat) (v : D) : Nat → D :=
  fun x => if x = a then v else m x

/-- The common loop shape of every one-cell-per-sample converter without
dithering: per sample, apply the per-sample function to the source cell at the
source position, store the result at the destination position, and advance
both positions by their strides; the dither generator is threaded through
untouched, as the C converters receive it only as an unused parameter. -/
def mapStride {C D : Type} (f : C → D) (dest : Nat → D) (dp ds : Nat)
    (src : Nat → C) (sp ss : Nat) : Nat → DitherState → (Nat → D) × DitherState
  | 0, g => (dest, g)
  | n + 1, g =>
    mapStride f (writeCell dest dp (f (src sp))) (dp + ds) ds src (sp + ss) ss n g

/-- The three little-endian stored bytes of a 24-bit sample taken from the high
24 bits of a 32-bit pattern v: dest[0] = v >> 8, dest[1] = v >> 16,
dest[2] = v >> 24, each truncated to a byte (pa_converters.c, PA_LITTLE_ENDIAN
branch of Int32_To_Int24). -/
def writeInt24LE (m : Mem) (a v : Nat) : Mem :=
  writeCell (writeCell (writeCell m a (v >>> 8 % 256)) (a + 1) (v >>> 16 % 256))
    (a + 2) (v >>> 24 % 256)

/-- Int32_To_Int24 (pa_converters.c, little-endian target): for each of count
samples, write the high three bytes of the 32-bit source sample as a packed
little-endian byte triple and advance the destination by 3 * stride bytes and
the source by its stride; the dither generator argument is unused. -/
def Int32_To_Int24 (dest : Mem) (dp ds : Nat) (src : Mem) (sp ss : Nat) :
    Nat → DitherState → Mem × DitherState
  | 0, g => (dest, g)
  | n + 1, g =>
    Int32_To_Int24 (writeInt24LE dest dp (src sp % 4294967296)) (dp + 3 * ds) ds
      src (sp + ss) ss n g

/-- Int32_To_Int16 (pa_converters.c): each destination element receives the
source sample arithmetically shifted right 16 bits and cast to PaInt16; the
dither generator argument is unused. -/
def Int32_To_Int16 : MemI → Nat → Nat → MemI → Nat → Nat →
    Nat → DitherState → MemI × DitherState :=
  mapStride fun v => wrap16 (sar v 16)

/-- Copy_8_To_8 (pa_converters.c): strided byte copy. -/
def Copy_8_To_8 : Mem → Nat → Nat → Mem → Nat → Nat →
    Nat → DitherState → Mem × DitherState :=
  mapStride id

/-- Copy_16_To_16 (pa_converters.c): strided copy of 16-bit elements, modelled
on element-addressed buffers whose cells are copied verbatim. -/
def Copy_16_To_16 : Mem → Nat → Nat → Mem → Nat → Nat →
    Nat → DitherState → Mem × DitherState :=
  mapStride id

/-- Copy_24_To_24 (pa_converters.c): per sample the three bytes are copied and
both pointers advance by 3 * stride bytes. -/
def Copy_24_To_24 (dest : Mem) (dp ds : Nat) (src : Mem) (sp ss : Nat) :
    Nat → DitherState → Mem × DitherState
  | 0, g => (dest, g)
  | n + 1, g =>
    Copy_24_To_24
      (writeCell (writeCell (writeCell dest dp (src sp)) (dp + 1) (src (sp + 1)))
        (dp + 2) (src (sp + 2)))
      (dp + 3 * ds) ds src (sp + 3 * ss) ss n g

/-- Copy_32_To_32 (pa_converters.c): strided copy of 32-bit elements, modelled
on element-addressed buffers whose cells are copied verbatim. -/
def Copy_32_To_32 : Mem → Nat → Nat → Mem → Nat → Nat →
    Nat → DitherState → Mem × DitherState :=
  mapStride id

/-- Float32_To_Int32 (pa_converters.c, scalar path): writes, per sample, the
result of the per-sample double computation (PaInt32)((double)x * 0x7FFFFFFF).
The floating-point scaling itself is abstracted as the uninterpreted per-sample
function conv, since the claims about this kernel concern only its buffer and
dither-state effects; the dither generator argument is unused by the C code. -/
def Float32_To_Int32 {F : Type} (conv : F → Int) : MemI → Nat → Nat →
    (Nat → F) → Nat → Nat → Nat → DitherState → MemI × DitherState :=
  mapStride conv

/-- Float32_To_Int32_Clip (pa_converters.c, scalar path): per sample the scaled
double is clamped with PA_CLIP_ to the 32-bit range before the cast.  The
scale-clamp-cast computation is abstracted as the uninterpreted per-sample
function convClip, as only buffer and dither-state effects are claimed; the
dither generator argument is unused by the C code. -/
def Float32_To_Int32_Clip {F : Type} (convClip : F → Int) : MemI → Nat → Nat →
    (Nat → F) → Nat → Nat → Nat → DitherState → MemI × DitherState :=
  mapStride convClip

/-- Int32_To_Int24_Dither (pa_converters.c): an unimplemented stub; every
parameter is cast to void behind an IMPLEMENT ME comment and the call returns
without touching the destination or the dither state. -/
def Int32_To_Int24_Dither (dest : Mem) (dp ds : Nat) (src : Mem) (sp ss : Nat)
    (count : Nat) (g : DitherState) : Mem × DitherState :=
  (dest, g)

/-- Int32_To_UInt8_Dither (pa_converters.c): the loop body is only an
IMPLEMENT ME comment; the pointers advance but nothing is written and the
dither state is untouched. -/
def Int32_To_UInt8_Dither (dest : Mem) (dp ds : Nat) (src : Mem) (sp ss : Nat)
    (count : Nat) (g : DitherState) : Mem × DitherState :=
  (dest, g)

/-- Int24_To_UInt8_Dither (pa_converters.c): an unimplemented stub like
Int32_To_Int24_Dither. -/
def Int24_To_UInt8_Dither (dest : Mem) (dp ds : Nat) (src : Mem) (sp ss : Nat)
    (count : Nat) (g : DitherState) : Mem × DitherState :=
  (dest, g)

/-- Int16_To_Int8_Dither (pa_converters.c): the loop body is only an
IMPLEMENT ME comment; nothing is written and the dither state is untouched. -/
def Int16_To_Int8_Dither (dest : Mem) (dp ds : Nat) (src : Mem) (sp ss : Nat)
    (count : Nat) (g : DitherState) : Mem × DitherState :=
  (dest, g)

/-- Int16_To_UInt8_Dither (pa_converters.c): the loop body is only an
IMPLEMENT ME comment; nothing is written and the dither state is untouched. -/
def Int16_To_UInt8_Dither (dest : Mem) (dp ds : Nat) (src : Mem) (sp ss : Nat)
    (count : Nat) (g : DitherState) : Mem × DitherState :=
  (dest, g)

/-- The value produced inside Int32_To_Int16_Dither and Int24_To_Int16_Dither
before the 16-bit cast: ((wide >> 1) + dither) >> 15, with the addition
performed in wrapping 32-bit arithmetic as in C. -/
def ditherNarrow16 (x d : Int) : Int := sar (wrap32 (sar x 1 + d)) 15

/-- The value produced inside Int32_To_Int8_Dither and Int24_To_Int8_Dither
before the 8-bit cast: ((wide >> 1) + dither) >> 23. -/
def ditherNarrow8 (x d : Int) : Int := sar (wrap32 (sar x 1 + d)) 23

/-- The common loop shape of the dithered narrowing converters on sample
sequences: per sample one dither value is drawn and the per-sample function is
applied to the sample and that dither value, threading the generator state. -/
def ditherMap {A B : Type} (f : A → Int → B) :
    List A → DitherState → List B × DitherState
  | [], st => ([], st)
  | x :: xs, st =>
    let p := PaUtil_Generate16BitTriangularDither st
    let r := ditherMap f xs p.2
    (f x p.1 :: r.1, r.2)

/-- Int32_To_Int16_Dither (pa_converters.c) on the sequence of samples
traversed by the strided loop: per sample,
dither = PaUtil_Generate16BitTriangularDither and
output = (PaInt16)(((x >> 1) + dither) >> 15). -/
def Int32_To_Int16_Dither : List Int → DitherState → List Int × DitherState :=
  ditherMap fun x d => wrap16 (ditherNarrow16 x d)

/-- Int32_To_Int8_Dither (pa_converters.c) on the traversed sample sequence:
output = (signed char)(((x >> 1) + dither) >> 23). -/
def Int32_To_Int8_Dither : List Int → DitherState → List Int × DitherState :=
  ditherMap fun x d => wrap8 (ditherNarrow8 x d)

/-- The 32-bit pattern a packed little-endian 24-bit sample is widened to by
the dithered 24-bit readers: (b0 << 8) | (b1 << 16) | (b2 << 24), reinterpreted
as PaInt32 (pa_converters.c, PA_LITTLE_ENDIAN branch). -/
def int24ToInt32 (b : Nat × Nat × Nat) : Int :=
  toSigned32 ((b.1 <<< 8) ||| (b.2.1 <<< 16) ||| (b.2.2 <<< 24))

/-- Int24_To_Int16_Dither (pa_converters.c) on the traversed byte-triple
sequence: the sample widens to the high 24 bits of a 32-bit value, then
output = (PaInt16)(((temp >> 1) + dither) >> 15). -/
def Int24_To_Int16_Dither :
    List (Nat × Nat × Nat) → DitherState → List Int × DitherState :=
  ditherMap fun b d => wrap16 (ditherNarrow16 (int24ToInt32 b) d)

/-- Int24_To_Int8_Dither (pa_converters.c) on the traversed byte-triple
sequence: output = (signed char)(((temp >> 1) + dither) >> 23). -/
def Int24_To_Int8_Dither :
    List (Nat × Nat × Nat) → DitherState → List Int × DitherState :=
  ditherMap fun b d => wrap8 (ditherNarrow8 (int24ToInt32 b) d)

/-- A reinterpreted 32-bit pattern lies in the signed 32-bit range. -/
lemma toSigned32_bounds (u : Nat) :
    -2147483648 ≤ toSigned32 u ∧ toSigned32 u ≤ 2147483647 := by
  unfold toSigned32
  have h1 : u % 4294967296 < 4294967296 := Nat.mod_lt _ (by norm_num)
  split <;> constructor <;> omega

/-- Floor division by a positive power of two is monotone. -/
lemma sar_le_sar {a b : Int} (n : Nat) (h : a ≤ b) : sar a n ≤ sar b n :=
  Int.ediv_le_ediv (by positivity) h

/-- The per-seed contribution of the dither generator lies in
[-8192, 8191]: a signed 32-bit value shifted right 18 bits. -/
lemma sar18_bounds (u : Nat) :
    -8192 ≤ sar (toSigned32 u) 18 ∧ sar (toSigned32 u) 18 ≤ 8191 := by
  obtain ⟨h1, h2⟩ := toSigned32_bounds u
  constructor
  · have := sar_le_sar (a := -2147483648) 18 h1
    have he : sar (-2147483648) 18 = -8192 := by decide
    omega
  · have := sar_le_sar (b := 2147483647) 18 h2
    have he : sar 2147483647 18 = 8191 := by decide
    omega

/-- Wrapping to 32 bits is the identity on the signed 32-bit range. -/
lemma wrap32_eq_self {v : Int} (h1 : -2147483648 ≤ v) (h2 : v ≤ 2147483647) :
    wrap32 v = v := by
  unfold wrap32
  rw [Int.emod_eq_of_lt (by omega) (by omega)]
  omega

/-- Saturating 32-bit subtraction agrees with plain subtraction when the
difference is representable. -/
lemma satSub32_eq (a b : Int) (h1 : -2147483648 ≤ a - b)
    (h2 : a - b ≤ 2147483647) : satSub32 a b = a - b := by
  simp only [satSub32]
  split_ifs <;> omega

/-- The current triangular sum of the dither generator lies in
[-16384, 16382]. -/
lemma currentSum_bounds (u v : Nat) :
    -16384 ≤ sar (toSigned32 u) 18 + sar (toSigned32 v) 18 ∧
      sar (toSigned32 u) 18 + sar (toSigned32 v) 18 ≤ 16382 := by
  obtain ⟨h1, h2⟩ := sar18_bounds u
  obtain ⟨h3, h4⟩ := sar18_bounds v
  omega

/-- After any scalar generator step the stored previous value lies in
[-16384, 16382]. -/
lemma gen16_previous_bounds (st : DitherState) :
    -16384 ≤ (PaUtil_Generate16BitTriangularDither st).2.previous ∧
      (PaUtil_Generate16BitTriangularDither st).2.previous ≤ 16382 := by
  simp only [PaUtil_Generate16BitTriangularDither]
  exact currentSum_bounds _ _

/-- Unfolding a zero-length scalar run. -/
lemma scalarDitherRun_zero (st : DitherState) : scalarDitherRun 0 st = ([], st) := rfl

/-- Unfolding one step of a scalar run. -/
lemma scalarDitherRun_succ (n : Nat) (st : DitherState) :
    scalarDitherRun (n + 1) st =
      ((PaUtil_GenerateFloatTriangularDither st).1 ::
        (scalarDitherRun n (PaUtil_GenerateFloatTriangularDither st).2).1,
       (scalarDitherRun n (PaUtil_GenerateFloatTriangularDither st).2).2) := rfl

/-- Splitting a scalar dither run into two consecutive runs. -/
lemma scalarDitherRun_add (m n : Nat) (st : DitherState) :
    scalarDitherRun (m + n) st =
      ((scalarDitherRun m st).1 ++ (scalarDitherRun n (scalarDitherRun m st).2).1,
       (scalarDitherRun n (scalarDitherRun m st).2).2) := by
  induction m generalizing st with
  | zero =>
    rw [Nat.zero_add, scalarDitherRun_zero]
    exact rfl
  | succ k ih =>
    have hr : k + 1 + n = (k + n) + 1 := by omega
    rw [hr, scalarDitherRun_succ, scalarDitherRun_succ, ih, List.cons_append]

/-- Four explicit scalar generator steps: outputs and final state. -/
def scalarFour (st : DitherState) : List Int × DitherState :=
  let p1 := PaUtil_Generate16BitTriangularDither st
  let p2 := PaUtil_Generate16BitTriangularDither p1.2
  let p3 := PaUtil_Generate16BitTriangularDither p2.2
  let p4 := PaUtil_Generate16BitTriangularDither p3.2
  ([p1.1, p2.1, p3.1, p4.1], p4.2)

/-- A length-4 scalar run is the explicit four-step block. -/
lemma scalarDitherRun_four (st : DitherState) :
    scalarDitherRun 4 st = scalarFour st := rfl

/-- After four scalar steps the stored previous value is again small. -/
lemma scalarFour_previous_bounds (st : DitherState) :
    -16384 ≤ (scalarFour st).2.previous ∧ (scalarFour st).2.previous ≤ 16382 := by
  simp only [scalarFour]
  exact gen16_previous_bounds _

/-- One vector generator call on the lane image of a scalar state produces
exactly the next four scalar outputs and the lane image of the scalar state
four steps later (the saturating subtractions cannot saturate because both the
current sums and the stored previous value are small). -/
lemma vectorStep_eq_scalarFour (p : Int) (s1 s2 : Nat)
    (h1 : -16384 ≤ p) (h2 : p ≤ 16382) :
    PaUtil_GenerateFloatTriangularDitherVector (laneInit ⟨p, s1, s2⟩) =
      ((scalarFour ⟨p, s1, s2⟩).1, laneInit (scalarFour ⟨p, s1, s2⟩).2) := by
  have b1 := currentSum_bounds (lcgNext s1) (lcgNext s2)
  have b2 := currentSum_bounds (lcgNext (lcgNext s1)) (lcgNext (lcgNext s2))
  have b3 := currentSum_bounds (lcgNext (lcgNext (lcgNext s1)))
    (lcgNext (lcgNext (lcgNext s2)))
  have b4 := currentSum_bounds (lcgNext (lcgNext (lcgNext (lcgNext s1))))
    (lcgNext (lcgNext (lcgNext (lcgNext s2))))
  simp only [PaUtil_GenerateFloatTriangularDitherVector, laneInit, scalarFour,
    PaUtil_Generate16BitTriangularDither, vmlaSeed]
  rw [satSub32_eq, satSub32_eq, satSub32_eq, satSub32_eq] <;> omega

/-- Unfolding a vector run on zero blocks. -/
lemma vectorDitherRun_zero (st : DitherStateVec) : vectorDitherRun 0 st = ([], st) := rfl

/-- Unfolding one block of a vector run. -/
lemma vectorDitherRun_succ (k : Nat) (st : DitherStateVec) :
    vectorDitherRun (k + 1) st =
      ((PaUtil_GenerateFloatTriangularDitherVector st).1 ++
        (vectorDitherRun k (PaUtil_GenerateFloatTriangularDitherVector st).2).1,
       (vectorDitherRun k (PaUtil_GenerateFloatTriangularDitherVector st).2).2) := rfl

/-- The state component of a run unfolds one step at a time. -/
lemma scalarDitherRun_snd_succ (n : Nat) (st : DitherState) :
    (scalarDitherRun (n + 1) st).2 =
      (scalarDitherRun n (PaUtil_GenerateFloatTriangularDither st).2).2 := by
  rw [scalarDitherRun_succ]

/-- The first dither value of a run. -/
lemma nthDither_zero (st : DitherState) :
    nthDither st 0 = (PaUtil_Generate16BitTriangularDither st).1 := by
  simp only [nthDither]
  rw [scalarDitherRun_zero]

/-- Later dither values of a run are the values of the advanced state. -/
lemma nthDither_succ (st : DitherState) (j : Nat) :
    nthDither st (j + 1) = nthDither (PaUtil_Generate16BitTriangularDither st).2 j := by
  simp only [nthDither]
  rw [scalarDitherRun_snd_succ]
  rfl

/-- Unfolding one sample of a ditherMap loop. -/
lemma ditherMap_cons {A B : Type} (f : A → Int → B) (x : A) (xs : List A)
    (st : DitherState) :
    ditherMap f (x :: xs) st =
      (f x (PaUtil_Generate16BitTriangularDither st).1 ::
        (ditherMap f xs (PaUtil_Generate16BitTriangularDither st).2).1,
       (ditherMap f xs (PaUtil_Generate16BitTriangularDither st).2).2) := rfl

/-- The length of a ditherMap output equals the input length. -/
lemma ditherMap_length {A B : Type} (f : A → Int → B) (xs : List A)
    (st : DitherState) : ((ditherMap f xs st).1).length = xs.length := by
  induction xs generalizing st with
  | nil => rfl
  | cons x xs ih =>
    rw [ditherMap_cons, List.length_cons, List.length_cons, ih]

/-- The j-th output of a ditherMap loop applies the per-sample function to the
j-th input sample and the j-th dither value drawn from the initial state. -/
lemma ditherMap_getD {A B : Type} (f : A → Int → B) (da : A) (db : B) :
    ∀ (xs : List A) (st : DitherState) (j : Nat), j < xs.length →
      ((ditherMap f xs st).1).getD j db = f (xs.getD j da) (nthDither st j) := by
  intro xs
  induction xs with
  | nil => intro st j hj; simp at hj
  | cons x xs ih =>
    intro st j hj
    cases j with
    | zero =>
      rw [ditherMap_cons, List.getD_cons_zero, List.getD_cons_zero, nthDither_zero]
    | succ j =>
      have hj1 : j < xs.length := by simpa using hj
      rw [ditherMap_cons, List.getD_cons_succ, List.getD_cons_succ, nthDither_succ,
        ih _ j hj1]

/-- Unfolding one sample of a mapStride loop. -/
lemma mapStride_succ {C D : Type} (f : C → D) (dest : Nat → D) (dp ds : Nat)
    (src : Nat → C) (sp ss : Nat) (n : Nat) (g : DitherState) :
    mapStride f dest dp ds src sp ss (n + 1) g =
      mapStride f (writeCell dest dp (f (src sp))) (dp + ds) ds src (sp + ss) ss n g := rfl

/-- A mapStride loop never modifies the dither state. -/
lemma mapStride_state {C D : Type} (f : C → D) :
    ∀ (n : Nat) (dest : Nat → D) (dp ds : Nat) (src : Nat → C) (sp ss : Nat)
      (g : DitherState), (mapStride f dest dp ds src sp ss n g).2 = g := by
  intro n
  induction n with
  | zero => intro dest dp ds src sp ss g; rfl
  | succ n ih =>
    intro dest dp ds src sp ss g
    rw [mapStride_succ]
    exact ih _ _ _ _ _ _ _

/-- Frame property of a mapStride loop: addresses outside the destination
stride pattern are unchanged. -/
lemma mapStride_frame {C D : Type} (f : C → D) :
    ∀ (n : Nat) (dest : Nat → D) (dp ds : Nat) (src : Nat → C) (sp ss : Nat)
      (g : DitherState) (a : Nat), (∀ i, i < n → a ≠ dp + ds * i) →
      (mapStride f dest dp ds src sp ss n g).1 a = dest a := by
  intro n
  induction n with
  | zero => intro dest dp ds src sp ss g a _; rfl
  | succ n ih =>
    intro dest dp ds src sp ss g a h
    have hrec : ∀ i, i < n → a ≠ (dp + ds) + ds * i := by
      intro i hi
      have hx := h (i + 1) (by omega)
      have he : dp + ds * (i + 1) = (dp + ds) + ds * i := by ring
      rw [he] at hx
      exact hx
    have h0 : a ≠ dp := by
      have := h 0 (by omega)
      omega
    rw [mapStride_succ, ih _ _ _ _ _ _ _ _ hrec]
    simp [writeCell, h0]

/-- Written cells of a mapStride loop: element i of the destination stride
pattern holds the converted source element i. -/
lemma mapStride_get {C D : Type} (f : C → D) :
    ∀ (n : Nat) (dest : Nat → D) (dp ds : Nat) (src : Nat → C) (sp ss : Nat)
      (g : DitherState) (i : Nat), 1 ≤ ds → i < n →
      (mapStride f dest dp ds src sp ss n g).1 (dp + ds * i) = f (src (sp + ss * i)) := by
  intro n
  induction n with
  | zero => intro dest dp ds src sp ss g i _ hi; omega
  | succ n ih =>
    intro dest dp ds src sp ss g i hds hi
    cases i with
    | zero =>
      have hfr : ∀ j, j < n → dp + ds * 0 ≠ (dp + ds) + ds * j := by
        intro j _
        omega
      rw [mapStride_succ, mapStride_frame f n _ _ _ _ _ _ _ _ hfr]
      simp [writeCell]
    | succ i =>
      have e1 : dp + ds * (i + 1) = (dp + ds) + ds * i := by ring
      have e2 : sp + ss * (i + 1) = (sp + ss) + ss * i := by ring
      rw [mapStride_succ, e1, e2]
      exact ih _ _ _ _ _ _ _ _ hds (by omega)

/-- Unfolding one sample of Int32_To_Int24. -/
lemma int32_To_Int24_succ (dest : Mem) (dp ds : Nat) (src : Mem) (sp ss n : Nat)
    (g : DitherState) :
    Int32_To_Int24 dest dp ds src sp ss (n + 1) g =
      Int32_To_Int24 (writeInt24LE dest dp (src sp % 4294967296)) (dp + 3 * ds) ds
        src (sp + ss) ss n g := rfl

/-- An Int32_To_Int24 loop never modifies the dither state. -/
lemma int32_To_Int24_state :
    ∀ (n : Nat) (dest : Mem) (dp ds : Nat) (src : Mem) (sp ss : Nat)
      (g : DitherState), (Int32_To_Int24 dest dp ds src sp ss n g).2 = g := by
  intro n
  induction n with
  | zero => intro dest dp ds src sp ss g; rfl
  | succ n ih =>
    intro dest dp ds src sp ss g
    rw [int32_To_Int24_succ]
    exact ih _ _ _ _ _ _ _

/-- Frame property of Int32_To_Int24: bytes outside the 3-byte destination
stride pattern are unchanged. -/
lemma int32_To_Int24_frame :
    ∀ (n : Nat) (dest : Mem) (dp ds : Nat) (src : Mem) (sp ss : Nat)
      (g : DitherState) (a : Nat),
      (∀ i, i < n → a ≠ dp + 3 * ds * i ∧ a ≠ dp + 3 * ds * i + 1 ∧ a ≠ dp + 3 * ds * i + 2) →
      (Int32_To_Int24 dest dp ds src sp ss n g).1 a = dest a := by
  intro n
  induction n with
  | zero => intro dest dp ds src sp ss g a _; rfl
  | succ n ih =>
    intro dest dp ds src sp ss g a h
    have hrec : ∀ i, i < n → a ≠ (dp + 3 * ds) + 3 * ds * i ∧
        a ≠ (dp + 3 * ds) + 3 * ds * i + 1 ∧ a ≠ (dp + 3 * ds) + 3 * ds * i + 2 := by
      intro i hi
      have hx := h (i + 1) (by omega)
      have he : dp + 3 * ds * (i + 1) = (dp + 3 * ds) + 3 * ds * i := by ring
      rw [he] at hx
      exact hx
    have h0 := h 0 (by omega)
    rw [int32_To_Int24_succ, ih _ _ _ _ _ _ _ _ hrec]
    simp only [writeInt24LE, writeCell]
    rw [if_neg (by omega), if_neg (by omega), if_neg (by omega)]

/-- Written bytes of Int32_To_Int24: sample i occupies the three bytes at
dp + 3 * ds * i holding, in order, bits 8-15, 16-23 and 24-31 of the 32-bit
source sample. -/
lemma int32_To_Int24_get :
    ∀ (n : Nat) (dest : Mem) (dp ds : Nat) (src : Mem) (sp ss : Nat)
      (g : DitherState) (i : Nat), 1 ≤ ds → i < n →
      (Int32_To_Int24 dest dp ds src sp ss n g).1 (dp + 3 * ds * i) =
          (src (sp + ss * i) % 4294967296) >>> 8 % 256 ∧
      (Int32_To_Int24 dest dp ds src sp ss n g).1 (dp + 3 * ds * i + 1) =
          (src (sp + ss * i) % 4294967296) >>> 16 % 256 ∧
      (Int32_To_Int24 dest dp ds src sp ss n g).1 (dp + 3 * ds * i + 2) =
          (src (sp + ss * i) % 4294967296) >>> 24 % 256 := by
  intro n
  induction n with
  | zero => intro dest dp ds src sp ss g i _ hi; omega
  | succ n ih =>
    intro dest dp ds src sp ss g i hds hi
    cases i with
    | zero =>
      have es : sp + ss * 0 = sp := by ring
      have hf0 : ∀ j, j < n → dp + 3 * ds * 0 ≠ (dp + 3 * ds) + 3 * ds * j ∧
          dp + 3 * ds * 0 ≠ (dp + 3 * ds) + 3 * ds * j + 1 ∧
          dp + 3 * ds * 0 ≠ (dp + 3 * ds) + 3 * ds * j + 2 := by
        intro j _
        omega
      have hf1 : ∀ j, j < n → dp + 3 * ds * 0 + 1 ≠ (dp + 3 * ds) + 3 * ds * j ∧
          dp + 3 * ds * 0 + 1 ≠ (dp + 3 * ds) + 3 * ds * j + 1 ∧
          dp + 3 * ds * 0 + 1 ≠ (dp + 3 * ds) + 3 * ds * j + 2 := by
        intro j _
        omega
      have hf2 : ∀ j, j < n → dp + 3 * ds * 0 + 2 ≠ (dp + 3 * ds) + 3 * ds * j ∧
          dp + 3 * ds * 0 + 2 ≠ (dp + 3 * ds) + 3 * ds * j + 1 ∧
          dp + 3 * ds * 0 + 2 ≠ (dp + 3 * ds) + 3 * ds * j + 2 := by
        intro j _
        omega
      refine ⟨?_, ?_, ?_⟩
      · rw [es, int32_To_Int24_succ, int32_To_Int24_frame n _ _ _ _ _ _ _ _ hf0]
        simp only [writeInt24LE, writeCell]
        rw [if_neg (by omega), if_neg (by omega), if_pos (by omega)]
      · rw [es, int32_To_Int24_succ, int32_To_Int24_frame n _ _ _ _ _ _ _ _ hf1]
        simp only [writeInt24LE, writeCell]
        rw [if_neg (by omega), if_pos (by omega)]
      · rw [es, int32_To_Int24_succ, int32_To_Int24_frame n _ _ _ _ _ _ _ _ hf2]
        simp only [writeInt24LE, writeCell]
        rw [if_pos (by omega)]
    | succ i =>
      have e1 : dp + 3 * ds * (i + 1) = (dp + 3 * ds) + 3 * ds * i := by ring
      have e2 : sp + ss * (i + 1) = (sp + ss) + ss * i := by ring
      rw [int32_To_Int24_succ, e1, e2]
      exact ih _ _ _ _ _ _ _ _ hds (by omega)

/-- Unfolding one sample of Copy_24_To_24. -/
lemma copy_24_To_24_succ (dest : Mem) (dp ds : Nat) (src : Mem) (sp ss n : Nat)
    (g : DitherState) :
    Copy_24_To_24 dest dp ds src sp ss (n + 1) g =
      Copy_24_To_24
        (writeCell (writeCell (writeCell dest dp (src sp)) (dp + 1) (src (sp + 1)))
          (dp + 2) (src (sp + 2)))
        (dp + 3 * ds) ds src (sp + 3 * ss) ss n g := rfl

/-- A Copy_24_To_24 loop never modifies the dither state. -/
lemma copy_24_To_24_state :
    ∀ (n : Nat) (dest : Mem) (dp ds : Nat) (src : Mem) (sp ss : Nat)
      (g : DitherState), (Copy_24_To_24 dest dp ds src sp ss n g).2 = g := by
  intro n
  induction n with
  | zero => intro dest dp ds src sp ss g; rfl
  | succ n ih =>
    intro dest dp ds src sp ss g
    rw [copy_24_To_24_succ]
    exact ih _ _ _ _ _ _ _

/-- Frame property of Copy_24_To_24: bytes outside the 3-byte destination
stride pattern are unchanged. -/
lemma copy_24_To_24_frame :
    ∀ (n : Nat) (dest : Mem) (dp ds : Nat) (src : Mem) (sp ss : Nat)
      (g : DitherState) (a : Nat),
      (∀ i, i < n → a ≠ dp + 3 * ds * i ∧ a ≠ dp + 3 * ds * i + 1 ∧ a ≠ dp + 3 * ds * i + 2) →
      (Copy_24_To_24 dest dp ds src sp ss n g).1 a = dest a := by
  intro n
  induction n with
  | zero => intro dest dp ds src sp ss g a _; rfl
  | succ n ih =>
    intro dest dp ds src sp ss g a h
    have hrec : ∀ i, i < n → a ≠ (dp + 3 * ds) + 3 * ds * i ∧
        a ≠ (dp + 3 * ds) + 3 * ds * i + 1 ∧ a ≠ (dp + 3 * ds) + 3 * ds * i + 2 := by
      intro i hi
      have hx := h (i + 1) (by omega)
      have he : dp + 3 * ds * (i + 1) = (dp + 3 * ds) + 3 * ds * i := by ring
      rw [he] at hx
      exact hx
    have h0 := h 0 (by omega)
    rw [copy_24_To_24_succ, ih _ _ _ _ _ _ _ _ hrec]
    simp only [writeCell]
    rw [if_neg (by omega), if_neg (by omega), if_neg (by omega)]

/-- Written bytes of Copy_24_To_24: sample i of the destination pattern holds
the three source bytes of sample i of the source pattern. -/
lemma copy_24_To_24_get :
    ∀ (n : Nat) (dest : Mem) (dp ds : Nat) (src : Mem) (sp ss : Nat)
      (g : DitherState) (i : Nat), 1 ≤ ds → i < n →
      (Copy_24_To_24 dest dp ds src sp ss n g).1 (dp + 3 * ds * i) =
          src (sp + 3 * ss * i) ∧
      (Copy_24_To_24 dest dp ds src sp ss n g).1 (dp + 3 * ds * i + 1) =
          src (sp + 3 * ss * i + 1) ∧
      (Copy_24_To_24 dest dp ds src sp ss n g).1 (dp + 3 * ds * i + 2) =
          src (sp + 3 * ss * i + 2) := by
  intro n
  induction n with
  | zero => intro dest dp ds src sp ss g i _ hi; omega
  | succ n ih =>
    intro dest dp ds src sp ss g i hds hi
    cases i with
    | zero =>
      have es : sp + 3 * ss * 0 = sp := by ring
      have hf0 : ∀ j, j < n → dp + 3 * ds * 0 ≠ (dp + 3 * ds) + 3 * ds * j ∧
          dp + 3 * ds * 0 ≠ (dp + 3 * ds) + 3 * ds * j + 1 ∧
          dp + 3 * ds * 0 ≠ (dp + 3 * ds) + 3 * ds * j + 2 := by
        intro j _
        omega
      have hf1 : ∀ j, j < n → dp + 3 * ds * 0 + 1 ≠ (dp + 3 * ds) + 3 * ds * j ∧
          dp + 3 * ds * 0 + 1 ≠ (dp + 3 * ds) + 3 * ds * j + 1 ∧
          dp + 3 * ds * 0 + 1 ≠ (dp + 3 * ds) + 3 * ds * j + 2 := by
        intro j _
        omega
      have hf2 : ∀ j, j < n → dp + 3 * ds * 0 + 2 ≠ (dp + 3 * ds) + 3 * ds * j ∧
          dp + 3 * ds * 0 + 2 ≠ (dp + 3 * ds) + 3 * ds * j + 1 ∧
          dp + 3 * ds * 0 + 2 ≠ (dp + 3 * ds) + 3 * ds * j + 2 := by
        intro j _
        omega
      refine ⟨?_, ?_, ?_⟩
      · rw [es, copy_24_To_24_succ, copy_24_To_24_frame n _ _ _ _ _ _ _ _ hf0]
        simp only [writeCell]
        rw [if_neg (by omega), if_neg (by omega), if_pos (by omega)]
      · rw [es, copy_24_To_24_succ, copy_24_To_24_frame n _ _ _ _ _ _ _ _ hf1]
        simp only [writeCell]
        rw [if_neg (by omega), if_pos (by omega)]
      · rw [es, copy_24_To_24_succ, copy_24_To_24_frame n _ _ _ _ _ _ _ _ hf2]
        simp only [writeCell]
        rw [if_pos (by omega)]
    | succ i =>
      have e1 : dp + 3 * ds * (i + 1) = (dp + 3 * ds) + 3 * ds * i := by ring
      have e2 : sp + 3 * ss * (i + 1) = (sp + 3 * ss) + 3 * ss * i := by ring
      rw [copy_24_To_24_succ, e1, e2]
      exact ih _ _ _ _ _ _ _ _ hds (by omega)

/-- C1: for every source sample sequence and dither state, the dithered
narrowing converters compute output sample j by arithmetically shifting the
wide value right one bit, adding the j-th value drawn from
PaUtil_Generate16BitTriangularDither, and arithmetically shifting the sum right
15 bits into the 16-bit width for the Int16 destinations
(Int32_To_Int16_Dither, Int24_To_Int16_Dither) and, analogously, right 23 bits
into the 8-bit width for the Int8 destinations (Int32_To_Int8_Dither,
Int24_To_Int8_Dither); for the 24-bit sources the wide value is the sample
widened into the high 24 bits of a 32-bit word. -/
theorem c1_dithered_narrowing_two_step (xs : List Int) (bs : List (Nat × Nat × Nat))
    (st : DitherState) (j : Nat) :
    (j < xs.length →
      (Int32_To_Int16_Dither xs st).1.getD j 0 =
          wrap16 (ditherNarrow16 (xs.getD j 0) (nthDither st j)) ∧
      (Int32_To_Int8_Dither xs st).1.getD j 0 =
          wrap8 (ditherNarrow8 (xs.getD j 0) (nthDither st j))) ∧
    (j < bs.length →
      (Int24_To_Int16_Dither bs st).1.getD j 0 =
          wrap16 (ditherNarrow16 (int24ToInt32 (bs.getD j (0, 0, 0))) (nthDither st j)) ∧
      (Int24_To_Int8_Dither bs st).1.getD j 0 =
          wrap8 (ditherNarrow8 (int24ToInt32 (bs.getD j (0, 0, 0))) (nthDither st j))) := by
  constructor
  · intro h
    exact ⟨ditherMap_getD (fun x d => wrap16 (ditherNarrow16 x d)) 0 0 xs st j h,
      ditherMap_getD (fun x d => wrap8 (ditherNarrow8 x d)) 0 0 xs st j h⟩
  · intro h
    exact ⟨ditherMap_getD (fun b d => wrap16 (ditherNarrow16 (int24ToInt32 b) d)) (0, 0, 0) 0 bs st j h,
      ditherMap_getD (fun b d => wrap8 (ditherNarrow8 (int24ToInt32 b) d)) (0, 0, 0) 0 bs st j h⟩

/-- Witness for C1 at a concrete sample, byte triple and dither state. -/
theorem c1_dithered_narrowing_two_step_witness :
    ((Int32_To_Int16_Dither [100] ⟨0, 22222, 5555555⟩).1.getD 0 0 =
        wrap16 (ditherNarrow16 (([100] : List Int).getD 0 0) (nthDither ⟨0, 22222, 5555555⟩ 0)) ∧
      (Int32_To_Int8_Dither [100] ⟨0, 22222, 5555555⟩).1.getD 0 0 =
        wrap8 (ditherNarrow8 (([100] : List Int).getD 0 0) (nthDither ⟨0, 22222, 5555555⟩ 0))) ∧
    ((Int24_To_Int16_Dither [(1, 2, 3)] ⟨0, 22222, 5555555⟩).1.getD 0 0 =
        wrap16 (ditherNarrow16 (int24ToInt32 (([(1, 2, 3)] : List (Nat × Nat × Nat)).getD 0 (0, 0, 0)))
          (nthDither ⟨0, 22222, 5555555⟩ 0)) ∧
      (Int24_To_Int8_Dither [(1, 2, 3)] ⟨0, 22222, 5555555⟩).1.getD 0 0 =
        wrap8 (ditherNarrow8 (int24ToInt32 (([(1, 2, 3)] : List (Nat × Nat × Nat)).getD 0 (0, 0, 0)))
          (nthDither ⟨0, 22222, 5555555⟩ 0))) :=
  ⟨(c1_dithered_narrowing_two_step [100] [(1, 2, 3)] ⟨0, 22222, 5555555⟩ 0).1 (by decide),
   (c1_dithered_narrowing_two_step [100] [(1, 2, 3)] ⟨0, 22222, 5555555⟩ 0).2 (by decide)⟩

/-- C2: selecting a converter with equal source and destination format returns
the copy kernel for that bit width for every flag combination, and each copy
kernel writes every destination element of the stride pattern equal to the
corresponding source element (for the 24-bit kernel, all three bytes). -/
theorem c2_unity_copy_selection_and_kernels :
    (∀ flags : Nat,
      PaUtil_SelectConverter paFloat32 paFloat32 flags = some ConverterId.Copy_32_To_32 ∧
      PaUtil_SelectConverter paInt32 paInt32 flags = some ConverterId.Copy_32_To_32 ∧
      PaUtil_SelectConverter paInt24 paInt24 flags = some ConverterId.Copy_24_To_24 ∧
      PaUtil_SelectConverter paInt16 paInt16 flags = some ConverterId.Copy_16_To_16 ∧
      PaUtil_SelectConverter paInt8 paInt8 flags = some ConverterId.Copy_8_To_8 ∧
      PaUtil_SelectConverter paUInt8 paUInt8 flags = some ConverterId.Copy_8_To_8) ∧
    (∀ (dest : Mem) (dp ds : Nat) (src : Mem) (sp ss n : Nat) (g : DitherState)
      (i : Nat), 1 ≤ ds → i < n →
      (Copy_8_To_8 dest dp ds src sp ss n g).1 (dp + ds * i) = src (sp + ss * i)) ∧
    (∀ (dest : Mem) (dp ds : Nat) (src : Mem) (sp ss n : Nat) (g : DitherState)
      (i : Nat), 1 ≤ ds → i < n →
      (Copy_16_To_16 dest dp ds src sp ss n g).1 (dp + ds * i) = src (sp + ss * i)) ∧
    (∀ (dest : Mem) (dp ds : Nat) (src : Mem) (sp ss n : Nat) (g : DitherState)
      (i : Nat), 1 ≤ ds → i < n →
      (Copy_24_To_24 dest dp ds src sp ss n g).1 (dp + 3 * ds * i) = src (sp + 3 * ss * i) ∧
      (Copy_24_To_24 dest dp ds src sp ss n g).1 (dp + 3 * ds * i + 1) = src (sp + 3 * ss * i + 1) ∧
      (Copy_24_To_24 dest dp ds src sp ss n g).1 (dp + 3 * ds * i + 2) = src (sp + 3 * ss * i + 2)) ∧
    (∀ (dest : Mem) (dp ds : Nat) (src : Mem) (sp ss n : Nat) (g : DitherState)
      (i : Nat), 1 ≤ ds → i < n →
      (Copy_32_To_32 dest dp ds src sp ss n g).1 (dp + ds * i) = src (sp + ss * i)) := by
  refine ⟨fun flags => ⟨rfl, rfl, rfl, rfl, rfl, rfl⟩, ?_, ?_, ?_, ?_⟩
  · intro dest dp ds src sp ss n g i hds hi
    exact mapStride_get id n dest dp ds src sp ss g i hds hi
  · intro dest dp ds src sp ss n g i hds hi
    exact mapStride_get id n dest dp ds src sp ss g i hds hi
  · intro dest dp ds src sp ss n g i hds hi
    exact copy_24_To_24_get n dest dp ds src sp ss g i hds hi
  · intro dest dp ds src sp ss n g i hds hi
    exact mapStride_get id n dest dp ds src sp ss g i hds hi

/-- Witness for C2 at a concrete copy call. -/
theorem c2_unity_copy_selection_and_kernels_witness :
    (Copy_8_To_8 (fun _ => 0) 0 1 (fun a => a + 7) 0 1 2 ⟨0, 1, 2⟩).1 (0 + 1 * 1) =
      (fun a => a + 7) (0 + 1 * 1) :=
  c2_unity_copy_selection_and_kernels.2.1 (fun _ => 0) 0 1 (fun a => a + 7) 0 1 2
    ⟨0, 1, 2⟩ 1 (by norm_num) (by norm_num)

/-- Counterexample for C3 as stated: requesting Int8 with exactly
{Float32, Int16} available returns Int16, not Float32 as the claim asserts. -/
theorem c3_closest_format_counterexample :
    PaUtil_SelectClosestAvailableFormat (paFloat32 ||| paInt16) paInt8 = paInt16 ∧
    paInt16 ≠ paFloat32 := by decide

/-- C3 (amended): requesting Int8 with exactly {Float32, Int16} available
returns Int16 (the nearest higher-quality available format found by the upward
scan, not Float32); requesting UInt8 with exactly {Int8} available returns
Int8; and requesting any of the six sample formats with the empty available
set returns the "not supported" sentinel. -/
theorem c3_closest_format_amended :
    PaUtil_SelectClosestAvailableFormat (paFloat32 ||| paInt16) paInt8 = paInt16 ∧
    PaUtil_SelectClosestAvailableFormat paInt8 paUInt8 = paInt8 ∧
    PaUtil_SelectClosestAvailableFormat 0 paFloat32 = paSampleFormatNotSupported ∧
    PaUtil_SelectClosestAvailableFormat 0 paInt32 = paSampleFormatNotSupported ∧
    PaUtil_SelectClosestAvailableFormat 0 paInt24 = paSampleFormatNotSupported ∧
    PaUtil_SelectClosestAvailableFormat 0 paInt16 = paSampleFormatNotSupported ∧
    PaUtil_SelectClosestAvailableFormat 0 paInt8 = paSampleFormatNotSupported ∧
    PaUtil_SelectClosestAvailableFormat 0 paUInt8 = paSampleFormatNotSupported := by
  decide

/-- Counterexample for C4 as stated: for the worst-quality format UInt8 the
upward scan is not skipped; with only Float32 available the function returns
Float32 found by the upward scan, while a downward-only search would report
"not supported". -/
theorem c4_skip_upward_counterexample :
    paUInt8 &&& (paFloat32 &&& niMask) = 0 ∧
    PaUtil_SelectClosestAvailableFormat paFloat32 paUInt8 = paFloat32 ∧
    selectClosestDownwardOnly paFloat32 paUInt8 = paSampleFormatNotSupported ∧
    paFloat32 ≠ paSampleFormatNotSupported := by decide

/-- C4 (amended): the upward scan is skipped exactly when the requested format
is the best ordinal of the quality ranking (Float32, the hard-coded 0x01 test):
whenever Float32 is requested and unavailable, the selection coincides with the
downward-only search. -/
theorem c4_skip_upward_amended :
    ∀ avail : Nat, paFloat32 &&& (avail &&& niMask) = 0 →
      PaUtil_SelectClosestAvailableFormat avail paFloat32 =
        selectClosestDownwardOnly avail paFloat32 := by
  intro avail h
  have e : paFloat32 &&& niMask = paFloat32 := by decide
  simp only [PaUtil_SelectClosestAvailableFormat, selectClosestDownwardOnly, e, h]
  norm_num [paFloat32]

/-- Witness for C4 (amended) with only Int32 available. -/
theorem c4_skip_upward_amended_witness :
    paFloat32 &&& ((2 : Nat) &&& niMask) = 0 ∧
    PaUtil_SelectClosestAvailableFormat 2 paFloat32 =
      selectClosestDownwardOnly 2 paFloat32 :=
  ⟨by decide, c4_skip_upward_amended 2 (by decide)⟩

/-- Counterexample for C5 as stated: at source sample 0x7FFFFFFF and the
dither value 32767 (inside the documented range) the dithered narrowing
expression evaluates to 32768, outside the signed 16-bit range, so the final
cast overflows. -/
theorem c5_dither_overflow_counterexample :
    (-2147483648 ≤ (2147483647 : Int) ∧ (2147483647 : Int) ≤ 2147483647 ∧
      -32768 ≤ (32767 : Int) ∧ (32767 : Int) ≤ 32767) ∧
    ditherNarrow16 2147483647 32767 = 32768 ∧
    ¬ (-32768 ≤ ditherNarrow16 2147483647 32767 ∧
        ditherNarrow16 2147483647 32767 ≤ 32767) := by decide

/-- C5 (amended): for every 32-bit signed source sample and every dither value
in the documented range [-32768, 32767], the expression
((src >> 1) + dither) >> 15 of Int32_To_Int16_Dither lies in [-32769, 32768];
the bound exceeds the 16-bit signed range by exactly one on each side, and at
the extremes (for example src = 0x7FFFFFFF with dither = 32767) the final cast
to 16 bits wraps. -/
theorem c5_dither_narrow_bounds :
    ∀ x d : Int, -2147483648 ≤ x → x ≤ 2147483647 → -32768 ≤ d → d ≤ 32767 →
      -32769 ≤ ditherNarrow16 x d ∧ ditherNarrow16 x d ≤ 32768 := by
  intro x d hx1 hx2 hd1 hd2
  have h1 : -1073741824 ≤ sar x 1 := by
    have := sar_le_sar (a := -2147483648) 1 hx1
    have he : sar (-2147483648) 1 = -1073741824 := by decide
    omega
  have h2 : sar x 1 ≤ 1073741823 := by
    have := sar_le_sar (b := 2147483647) 1 hx2
    have he : sar 2147483647 1 = 1073741823 := by decide
    omega
  have hw : wrap32 (sar x 1 + d) = sar x 1 + d := wrap32_eq_self (by omega) (by omega)
  unfold ditherNarrow16
  rw [hw]
  constructor
  · have := sar_le_sar (a := -1073774592) 15 (show (-1073774592 : Int) ≤ sar x 1 + d by omega)
    have he : sar (-1073774592) 15 = -32769 := by decide
    omega
  · have := sar_le_sar (b := 1073774590) 15 (show sar x 1 + d ≤ 1073774590 by omega)
    have he : sar 1073774590 15 = 32768 := by decide
    omega

/-- Witness for C5 (amended) at sample 0 and dither 0. -/
theorem c5_dither_narrow_bounds_witness :
    -32769 ≤ ditherNarrow16 0 0 ∧ ditherNarrow16 0 0 ≤ 32768 :=
  c5_dither_narrow_bounds 0 0 (by decide) (by decide) (by decide) (by decide)

/-- C6: the five dithered integer narrowing conversions that are unimplemented
stubs in pa_converters.c are returned normally by converter selection when
dithering is requested, and invoking them leaves every destination byte and
the dither state untouched while appearing to succeed: the code provides a
silent no-op, not the hard explicit failure the claim (and the spec) require. -/
theorem c6_unimplemented_stubs_silent_noop :
    PaUtil_SelectConverter paInt32 paInt24 0 = some ConverterId.Int32_To_Int24_Dither ∧
    PaUtil_SelectConverter paInt32 paUInt8 0 = some ConverterId.Int32_To_UInt8_Dither ∧
    PaUtil_SelectConverter paInt24 paUInt8 0 = some ConverterId.Int24_To_UInt8_Dither ∧
    PaUtil_SelectConverter paInt16 paInt8 0 = some ConverterId.Int16_To_Int8_Dither ∧
    PaUtil_SelectConverter paInt16 paUInt8 0 = some ConverterId.Int16_To_UInt8_Dither ∧
    (∀ (dest : Mem) (dp ds : Nat) (src : Mem) (sp ss count : Nat) (g : DitherState),
      Int32_To_Int24_Dither dest dp ds src sp ss count g = (dest, g) ∧
      Int32_To_UInt8_Dither dest dp ds src sp ss count g = (dest, g) ∧
      Int24_To_UInt8_Dither dest dp ds src sp ss count g = (dest, g) ∧
      Int16_To_Int8_Dither dest dp ds src sp ss count g = (dest, g) ∧
      Int16_To_UInt8_Dither dest dp ds src sp ss count g = (dest, g)) := by
  refine ⟨by decide, by decide, by decide, by decide, by decide, ?_⟩
  intro dest dp ds src sp ss count g
  exact ⟨rfl, rfl, rfl, rfl, rfl⟩

/-- C7: starting from the lane image of any scalar dither state whose stored
previous value is in the generator's reachable range, k calls of the 4-wide
vector dither generator produce, with lanes read back in order, exactly the
4 * k integer high-pass values of the scalar float dither generator, and leave
the vector state equal to the lane image of the scalar state; both entry
points then multiply these equal integers by the same constant
const_float_dither_scale_, so the float outputs are bit-for-bit identical. -/
theorem c7_vector_scalar_dither_equiv :
    ∀ (k : Nat) (st : DitherState), -16384 ≤ st.previous → st.previous ≤ 16382 →
      vectorDitherRun k (laneInit st) =
        ((scalarDitherRun (4 * k) st).1, laneInit (scalarDitherRun (4 * k) st).2) := by
  intro k
  induction k with
  | zero =>
    intro st h1 h2
    rw [Nat.mul_zero, scalarDitherRun_zero, vectorDitherRun_zero]
  | succ k ih =>
    intro st h1 h2
    obtain ⟨p, s1, s2⟩ := st
    have h4 : 4 * (k + 1) = 4 + 4 * k := by ring
    have hv := vectorStep_eq_scalarFour p s1 s2 h1 h2
    have hv1 : (PaUtil_GenerateFloatTriangularDitherVector (laneInit ⟨p, s1, s2⟩)).1 =
        (scalarFour ⟨p, s1, s2⟩).1 := by rw [hv]
    have hv2 : (PaUtil_GenerateFloatTriangularDitherVector (laneInit ⟨p, s1, s2⟩)).2 =
        laneInit (scalarFour ⟨p, s1, s2⟩).2 := by rw [hv]
    obtain ⟨hp1, hp2⟩ := scalarFour_previous_bounds ⟨p, s1, s2⟩
    rw [h4, scalarDitherRun_add 4 (4 * k), scalarDitherRun_four,
      vectorDitherRun_succ, hv1, hv2, ih _ hp1 hp2]

/-- Witness for C7 at one vector block from a concrete state. -/
theorem c7_vector_scalar_dither_equiv_witness :
    vectorDitherRun 1 (laneInit ⟨0, 22222, 5555555⟩) =
      ((scalarDitherRun (4 * 1) ⟨0, 22222, 5555555⟩).1,
       laneInit (scalarDitherRun (4 * 1) ⟨0, 22222, 5555555⟩).2) :=
  c7_vector_scalar_dither_equiv 1 ⟨0, 22222, 5555555⟩ (by decide) (by decide)

/-- C8: on a little-endian target, Int32_To_Int24 stores sample i at
destination byte offset dp + 3 * ds * i (the destination advances by stride
times 3 bytes per sample), writing in order bits 8-15, 16-23 and 24-31 of the
logical 32-bit value, so the most significant byte of the value is the most
significant stored byte; in particular the source value 0x7FFFFFFF yields the
byte triple 0xFF, 0xFF, 0x7F in that order. -/
theorem c8_int32_to_int24_endianness :
    (∀ (dest : Mem) (dp ds : Nat) (src : Mem) (sp ss n : Nat) (g : DitherState)
      (i : Nat), 1 ≤ ds → i < n →
      (Int32_To_Int24 dest dp ds src sp ss n g).1 (dp + 3 * ds * i) =
          (src (sp + ss * i) % 4294967296) >>> 8 % 256 ∧
      (Int32_To_Int24 dest dp ds src sp ss n g).1 (dp + 3 * ds * i + 1) =
          (src (sp + ss * i) % 4294967296) >>> 16 % 256 ∧
      (Int32_To_Int24 dest dp ds src sp ss n g).1 (dp + 3 * ds * i + 2) =
          (src (sp + ss * i) % 4294967296) >>> 24 % 256) ∧
    (∀ (dest : Mem) (g : DitherState),
      (Int32_To_Int24 dest 0 1 (fun _ => 2147483647) 0 1 1 g).1 0 = 255 ∧
      (Int32_To_Int24 dest 0 1 (fun _ => 2147483647) 0 1 1 g).1 1 = 255 ∧
      (Int32_To_Int24 dest 0 1 (fun _ => 2147483647) 0 1 1 g).1 2 = 127) := by
  constructor
  · intro dest dp ds src sp ss n g i hds hi
    exact int32_To_Int24_get n dest dp ds src sp ss g i hds hi
  · intro dest g
    have h := int32_To_Int24_get 1 dest 0 1 (fun _ => 2147483647) 0 1 g 0
      (by norm_num) (by norm_num)
    norm_num at h
    exact h

/-- Witness for C8 on a concrete buffer. -/
theorem c8_int32_to_int24_endianness_witness :
    (Int32_To_Int24 (fun _ => 0) 0 1 (fun _ => 2147483647) 0 1 1 ⟨0, 22222, 5555555⟩).1 0 = 255 ∧
    (Int32_To_Int24 (fun _ => 0) 0 1 (fun _ => 2147483647) 0 1 1 ⟨0, 22222, 5555555⟩).1 1 = 255 ∧
    (Int32_To_Int24 (fun _ => 0) 0 1 (fun _ => 2147483647) 0 1 1 ⟨0, 22222, 5555555⟩).1 2 = 127 := by
  have h := c8_int32_to_int24_endianness.1 (fun _ => 0) 0 1 (fun _ => 2147483647) 0 1 1
    ⟨0, 22222, 5555555⟩ 0 (by norm_num) (by norm_num)
  norm_num at h
  exact h

/-- C9: every embedded converter that is not a dither variant, namely the
plain kernels Float32_To_Int32 and Int32_To_Int24 and Int32_To_Int16, the
Float32_To_Int32_Clip kernel, and the four copy kernels, returns the
dither state of the caller completely unchanged, for every sample count,
stride, position and buffer (the floating-point per-sample computations of the
two Float32 kernels are abstracted as arbitrary functions, which only
strengthens the statement). -/
theorem c9_non_dither_kernels_preserve_state :
    (∀ (F : Type) (conv : F → Int) (dest : MemI) (dp ds : Nat) (src : Nat → F)
      (sp ss n : Nat) (g : DitherState),
      (Float32_To_Int32 conv dest dp ds src sp ss n g).2 = g) ∧
    (∀ (F : Type) (convClip : F → Int) (dest : MemI) (dp ds : Nat) (src : Nat → F)
      (sp ss n : Nat) (g : DitherState),
      (Float32_To_Int32_Clip convClip dest dp ds src sp ss n g).2 = g) ∧
    (∀ (dest : Mem) (dp ds : Nat) (src : Mem) (sp ss n : Nat) (g : DitherState),
      (Copy_8_To_8 dest dp ds src sp ss n g).2 = g) ∧
    (∀ (dest : Mem) (dp ds : Nat) (src : Mem) (sp ss n : Nat) (g : DitherState),
      (Copy_16_To_16 dest dp ds src sp ss n g).2 = g) ∧
    (∀ (dest : Mem) (dp ds : Nat) (src : Mem) (sp ss n : Nat) (g : DitherState),
      (Copy_24_To_24 dest dp ds src sp ss n g).2 = g) ∧
    (∀ (dest : Mem) (dp ds : Nat) (src : Mem) (sp ss n : Nat) (g : DitherState),
      (Copy_32_To_32 dest dp ds src sp ss n g).2 = g) ∧
    (∀ (dest : Mem) (dp ds : Nat) (src : Mem) (sp ss n : Nat) (g : DitherState),
      (Int32_To_Int24 dest dp ds src sp ss n g).2 = g) ∧
    (∀ (dest : MemI) (dp ds : Nat) (src : MemI) (sp ss n : Nat) (g : DitherState),
      (Int32_To_Int16 dest dp ds src sp ss n g).2 = g) := by
  refine ⟨?_, ?_, ?_, ?_, ?_, ?_, ?_, ?_⟩
  · intro F conv dest dp ds src sp ss n g
    exact mapStride_state conv n dest dp ds src sp ss g
  · intro F convClip dest dp ds src sp ss n g
    exact mapStride_state convClip n dest dp ds src sp ss g
  · intro dest dp ds src sp ss n g
    exact mapStride_state id n dest dp ds src sp ss g
  · intro dest dp ds src sp ss n g
    exact mapStride_state id n dest dp ds src sp ss g
  · intro dest dp ds src sp ss n g
    exact copy_24_To_24_state n dest dp ds src sp ss g
  · intro dest dp ds src sp ss n g
    exact mapStride_state id n dest dp ds src sp ss g
  · intro dest dp ds src sp ss n g
    exact int32_To_Int24_state n dest dp ds src sp ss g
  · intro dest dp ds src sp ss n g
    exact mapStride_state (fun v => wrap16 (sar v 16)) n dest dp ds src sp ss g

/-- Counterexample for C10 as stated: the converter Int16_To_Int8_Dither, with
sample count 1, does not write destination element 0 of the stride pattern:
the element's final value is whatever the destination held before the call
(0 for an all-0 buffer, 7 for an all-7 buffer), so not every converter writes
its n destination elements. -/
theorem c10_frame_counterexample :
    (Int16_To_Int8_Dither (fun _ => 0) 0 1 (fun _ => 1) 0 1 1 ⟨0, 22222, 5555555⟩).1 0 = 0 ∧
    (Int16_To_Int8_Dither (fun _ => 7) 0 1 (fun _ => 1) 0 1 1 ⟨0, 22222, 5555555⟩).1 0 = 7 ∧
    (0 : Nat) ≠ 7 := ⟨rfl, rfl, by decide⟩

/-- C10 (amended): every implemented converter call with sample count n writes
exactly the n destination elements addressed by the destination stride pattern
and leaves all other destination bytes unchanged, shown for the cited kernels:
Int32_To_Int24 and Copy_24_To_24 write the 3 bytes of each of the n pattern
elements and leave every address outside the pattern unchanged, and
Int32_To_Int16 writes each of the n pattern elements and leaves every other
element unchanged; the source buffer is never written (the kernels are
functions of it); the unimplemented dithered narrowing stubs, however, write
nothing at all (shown for Int16_To_Int8_Dither). -/
theorem c10_write_set_and_frame :
    (∀ (dest : Mem) (dp ds : Nat) (src : Mem) (sp ss n : Nat) (g : DitherState)
      (i : Nat), 1 ≤ ds → i < n →
      (Int32_To_Int24 dest dp ds src sp ss n g).1 (dp + 3 * ds * i) =
          (src (sp + ss * i) % 4294967296) >>> 8 % 256 ∧
      (Int32_To_Int24 dest dp ds src sp ss n g).1 (dp + 3 * ds * i + 1) =
          (src (sp + ss * i) % 4294967296) >>> 16 % 256 ∧
      (Int32_To_Int24 dest dp ds src sp ss n g).1 (dp + 3 * ds * i + 2) =
          (src (sp + ss * i) % 4294967296) >>> 24 % 256) ∧
    (∀ (dest : Mem) (dp ds : Nat) (src : Mem) (sp ss n : Nat) (g : DitherState)
      (a : Nat),
      (∀ i, i < n → a ≠ dp + 3 * ds * i ∧ a ≠ dp + 3 * ds * i + 1 ∧ a ≠ dp + 3 * ds * i + 2) →
      (Int32_To_Int24 dest dp ds src sp ss n g).1 a = dest a) ∧
    (∀ (dest : Mem) (dp ds : Nat) (src : Mem) (sp ss n : Nat) (g : DitherState)
      (i : Nat), 1 ≤ ds → i < n →
      (Copy_24_To_24 dest dp ds src sp ss n g).1 (dp + 3 * ds * i) = src (sp + 3 * ss * i) ∧
      (Copy_24_To_24 dest dp ds src sp ss n g).1 (dp + 3 * ds * i + 1) = src (sp + 3 * ss * i + 1) ∧
      (Copy_24_To_24 dest dp ds src sp ss n g).1 (dp + 3 * ds * i + 2) = src (sp + 3 * ss * i + 2)) ∧
    (∀ (dest : Mem) (dp ds : Nat) (src : Mem) (sp ss n : Nat) (g : DitherState)
      (a : Nat),
      (∀ i, i < n → a ≠ dp + 3 * ds * i ∧ a ≠ dp + 3 * ds * i + 1 ∧ a ≠ dp + 3 * ds * i + 2) →
      (Copy_24_To_24 dest dp ds src sp ss n g).1 a = dest a) ∧
    (∀ (dest : MemI) (dp ds : Nat) (src : MemI) (sp ss n : Nat) (g : DitherState)
      (i : Nat), 1 ≤ ds → i < n →
      (Int32_To_Int16 dest dp ds src sp ss n g).1 (dp + ds * i) =
        wrap16 (sar (src (sp + ss * i)) 16)) ∧
    (∀ (dest : MemI) (dp ds : Nat) (src : MemI) (sp ss n : Nat) (g : DitherState)
      (a : Nat), (∀ i, i < n → a ≠ dp + ds * i) →
      (Int32_To_Int16 dest dp ds src sp ss n g).1 a = dest a) ∧
    (∀ (dest : Mem) (dp ds : Nat) (src : Mem) (sp ss count : Nat) (g : DitherState),
      (Int16_To_Int8_Dither dest dp ds src sp ss count g).1 = dest) := by
  refine ⟨?_, ?_, ?_, ?_, ?_, ?_, ?_⟩
  · intro dest dp ds src sp ss n g i hds hi
    exact int32_To_Int24_get n dest dp ds src sp ss g i hds hi
  · intro dest dp ds src sp ss n g a h
    exact int32_To_Int24_frame n dest dp ds src sp ss g a h
  · intro dest dp ds src sp ss n g i hds hi
    exact copy_24_To_24_get n dest dp ds src sp ss g i hds hi
  · intro dest dp ds src sp ss n g a h
    exact copy_24_To_24_frame n dest dp ds src sp ss g a h
  · intro dest dp ds src sp ss n g i hds hi
    exact mapStride_get (fun v => wrap16 (sar v 16)) n dest dp ds src sp ss g i hds hi
  · intro dest dp ds src sp ss n g a h
    exact mapStride_frame (fun v => wrap16 (sar v 16)) n dest dp ds src sp ss g a h
  · intro dest dp ds src sp ss count g
    rfl

/-- Witness for C10 (amended): a concrete frame instance, one byte above the
single written triple. -/
theorem c10_write_set_and_frame_witness :
    (Int32_To_Int24 (fun _ => 9) 0 1 (fun _ => 2147483647) 0 1 1 ⟨0, 22222, 5555555⟩).1 3 = 9 :=
  c10_write_set_and_frame.2.1 (fun _ => 9) 0 1 (fun _ => 2147483647) 0 1 1
    ⟨0, 22222, 5555555⟩ 3 (by intro i hi; omega)
